import Mathlib

/-!
Verification development for the Oro haptic paddle audio driver
(`src/firmware/OroHapticFirmware/audio_i2s.cpp` and `audio_i2s.h`).

The driver is embedded shallowly:

* Hardware register writes, millisecond sleeps (`delay`) and serial
  diagnostics are modelled as an explicit trace of `Event`s.  Reads of
  hardware completion flags (`EVENTS_TXPTRUPD`, `EVENTS_STOPPED`) are
  modelled by an environment `ChunkEnv` saying whether each signal
  appears before its polling timeout.
* The driver object (`initialized`, `playing`, `audioBuffer`) is the
  state `AudioState`; the buffer is a total map from index to the
  stored 32-bit word.
* The sine synthesis `(int16_t)(amplitude * sin(angle))` is modelled
  over the real numbers (`toneSample`); the buffer-filling loop
  `generateTone` is parameterised by the sample function so that the
  trace/state layer stays executable.
* Machine arithmetic: all the quantities involved (`sampleCount`,
  `duration_ms`, `totalSamples`, buffer indices) stay far below their
  C types' bounds on every path modelled, so they are embedded as `Nat`
  with the same truncating divisions the C code performs; the one cast
  where two's-complement wrapping matters, `(uint16_t)sample`, is
  `pack`.
-/

namespace OroAudio

/-- `SAMPLE_RATE` from `audio_i2s.h` (16 kHz). -/
def SAMPLE_RATE : Nat := 16000

/-- `AUDIO_BUFFER_SIZE` from `audio_i2s.h` (256 samples). -/
def AUDIO_BUFFER_SIZE : Nat := 256

/-- `MAX_TONE_DURATION_MS` from `audio_i2s.h` (2000 ms). -/
def MAX_TONE_DURATION_MS : Nat := 2000

/-- The hardware registers the driver writes (CLOCK and I2S peripherals,
plus the MAX98357A shutdown GPIO driven via `digitalWrite`). -/
inductive Reg where
  | tasksHfClkStart
  | evHfClkStarted
  | enable
  | pselSck
  | pselLrck
  | pselSdout
  | pselSdin
  | evRxPtrUpd
  | evTxPtrUpd
  | evStopped
  | intenClr
  | cfgMode
  | cfgSwidth
  | cfgAlign
  | cfgFormat
  | cfgChannels
  | cfgMcken
  | cfgTxen
  | cfgRxen
  | cfgMckFreq
  | cfgRatioVal
  | txdPtr
  | maxcnt
  | tasksStart
  | tasksStop
  | gpioSdMode
deriving DecidableEq

/-- One observable step of the driver: a register write, a blocking
`delay(ms)`, the "Playing tone: f Hz for d ms at volume v" diagnostic
emitted by `playTone` (kept with its arguments, since it witnesses one
tone playback), or any other serial diagnostic line. -/
inductive Event where
  | write (r : Reg) (v : Nat)
  | sleep (ms : Nat)
  | tone (f d v : Nat)
  | log
deriving DecidableEq

/-- Environment for one chunk: whether `EVENTS_TXPTRUPD` appears within
the 50 ms polling bound, and whether `EVENTS_STOPPED` appears within the
100 ms polling bound. -/
structure ChunkEnv where
  tx : Bool
  stp : Bool

/-- The driver instance: fields `initialized`, `playing` and
`audioBuffer` of class `AudioI2S`. -/
structure AudioState where
  initialized : Bool
  playing : Bool
  buffer : Nat → Nat

/-- `AudioI2S::isPlaying`. -/
def isPlaying (st : AudioState) : Bool := st.playing

/-- Register writes and delays of `AudioI2S::configureI2S`, in program
order.  The numeric values of the SDK mode constants
(`I2S_CONFIG_MODE_MODE_Master` and so on) are irrelevant to every claim;
they are written here with their SDK values. -/
def configureI2STrace : List Event :=
  [Event.write Reg.evHfClkStarted 0, Event.write Reg.tasksHfClkStart 1,
   Event.write Reg.evHfClkStarted 0,
   Event.write Reg.enable 0, Event.sleep 10,
   Event.write Reg.pselSck 0xFFFFFFFF, Event.write Reg.pselLrck 0xFFFFFFFF,
   Event.write Reg.pselSdout 0xFFFFFFFF, Event.write Reg.pselSdin 0xFFFFFFFF,
   Event.write Reg.evRxPtrUpd 0, Event.write Reg.evTxPtrUpd 0,
   Event.write Reg.evStopped 0,
   Event.write Reg.intenClr 0xFFFFFFFF, Event.sleep 10,
   Event.write Reg.pselSck 3, Event.write Reg.pselLrck 28,
   Event.write Reg.pselSdout 2,
   Event.write Reg.cfgMode 0, Event.write Reg.cfgSwidth 1,
   Event.write Reg.cfgAlign 0, Event.write Reg.cfgFormat 0,
   Event.write Reg.cfgChannels 1, Event.write Reg.cfgMcken 1,
   Event.write Reg.cfgTxen 1, Event.write Reg.cfgRxen 0,
   Event.write Reg.cfgMckFreq 0x70000000, Event.write Reg.cfgRatioVal 2,
   Event.write Reg.enable 1, Event.sleep 10,
   Event.log, Event.log, Event.log]

/-- `AudioI2S::begin`: early no-op success when already initialized,
otherwise configure the peripheral, enable the amplifier shutdown line
(`SD_MODE_PIN` is defined in the header), set `initialized` and return
`true`.  The busy-wait for `EVENTS_HFCLKSTARTED` has no timeout and the
clock is treated as unconditionally available, as the code assumes. -/
def begin (st : AudioState) : Bool × AudioState × List Event :=
  if st.initialized then (true, st, [Event.log])
  else
    (true, { st with initialized := true },
      Event.log :: configureI2STrace ++
        [Event.write Reg.gpioSdMode 1, Event.sleep 10, Event.log,
         Event.log, Event.log, Event.log])

/-- `audioBuffer[i] = (uint16_t)sample`: the two's-complement 16-bit
packing of the signed sample, stored in the 32-bit buffer word. -/
def pack (s : Int) : Nat := (s % 65536).toNat

/-- `constrain(volume, 0, 100)` followed by `map(volume, 0, 100, 0, 32767)`:
`volume` is an unsigned byte, so the lower clamp is a no-op and the
Arduino `map` is the truncating integer division `volume * 32767 / 100`. -/
def amplitudeOf (volume : Nat) : Nat := min volume 100 * 32767 / 100

/-- The C cast `(int16_t)(x)` from a floating value in range: truncation
toward zero. -/
noncomputable def truncZ (x : ℝ) : Int := if 0 ≤ x then ⌊x⌋ else ⌈x⌉

/-- The sample `generateTone` computes at index `i`:
`(int16_t)(amplitude * sin(2 * PI * frequency * (i / SAMPLE_RATE)))`,
with the floating computation modelled over the reals. -/
noncomputable def toneSample (frequency i volume : Nat) : Int :=
  truncZ ((amplitudeOf volume : ℝ) *
    Real.sin (2 * Real.pi * (frequency : ℝ) * ((i : ℝ) / (SAMPLE_RATE : ℝ))))

/-- Modelled from the spec for comparison (claim C3 words the sample as
`round(amplitude * sin(phase))`): the rounded, rather than truncated,
sample. -/
noncomputable def specRoundSample (frequency i volume : Nat) : Int :=
  round ((amplitudeOf volume : ℝ) *
    Real.sin (2 * Real.pi * (frequency : ℝ) * ((i : ℝ) / (SAMPLE_RATE : ℝ))))

/-- The buffer-filling loop of `AudioI2S::generateTone`:
`for (i = 0; i < samples && i < AUDIO_BUFFER_SIZE; i++) audioBuffer[i] = ...`.
Parameterised by the sample function so that the state layer stays
executable; claim C3 instantiates it with `toneSample`. -/
def generateTone (sampleFn : Nat → Nat → Nat → Int)
    (frequency samples volume : Nat) (buf : Nat → Nat) : Nat → Nat :=
  (List.range (min samples AUDIO_BUFFER_SIZE)).foldl
    (fun b i => Function.update b i (pack (sampleFn frequency i volume))) buf

/-- `AudioI2S::waitForCompletion` lines 248-251: the truncating division
`sampleCount * 1000 / SAMPLE_RATE`, raised to 1 when it is zero. -/
def expectedDurationMs (sampleCount : Nat) : Nat :=
  if sampleCount * 1000 / SAMPLE_RATE = 0 then 1
  else sampleCount * 1000 / SAMPLE_RATE

/-- Ceiling division on naturals (used to state the spec's formulas). -/
def ceilDiv (a b : Nat) : Nat := (a + b - 1) / b

/-- Modelled from the spec for comparison (claim C2 words the expected
duration as `ceil(sampleCount * 1000 / sampleRate)` ms with a minimum of
1 ms). -/
def claimedExpectedMs (sampleCount : Nat) : Nat :=
  max (ceilDiv (sampleCount * 1000) SAMPLE_RATE) 1

/-- `AudioI2S::startTransfer`: buffer pointer, word count, diagnostic,
event clears, start task.  The buffer address written to `TXD.PTR` is
not an arithmetic value of the model and is recorded as 0. -/
def startTransfer (sampleCount : Nat) : List Event :=
  [Event.write Reg.txdPtr 0, Event.write Reg.maxcnt sampleCount, Event.log,
   Event.write Reg.evTxPtrUpd 0, Event.write Reg.evStopped 0,
   Event.write Reg.tasksStart 1]

/-- `AudioI2S::waitForCompletion`: on a `TXPTRUPD` timeout, two
diagnostics and an early return (no stop task, no delay); on success,
clear the event, `delay(expectedDurationMs + 1)`, diagnostic, issue
`TASKS_STOP`, then either a `STOPPED` timeout (two diagnostics, early
return) or clear the event and log completion. -/
def waitForCompletion (sampleCount : Nat) (env : ChunkEnv) : List Event :=
  if env.tx then
    [Event.write Reg.evTxPtrUpd 0,
     Event.sleep (expectedDurationMs sampleCount + 1), Event.log,
     Event.write Reg.tasksStop 1] ++
      (if env.stp then [Event.write Reg.evStopped 0, Event.log]
       else [Event.log, Event.log])
  else [Event.log, Event.log]

/-- `constrain(duration_ms, 1, MAX_TONE_DURATION_MS)` in `playTone`. -/
def clampedDuration (d : Nat) : Nat := min (max d 1) MAX_TONE_DURATION_MS

/-- `totalSamples = ((uint32_t)SAMPLE_RATE * duration_ms) / 1000` with the
already clamped duration. -/
def totalSamplesOf (d : Nat) : Nat := SAMPLE_RATE * clampedDuration d / 1000

/-- The chunk sizes consumed by `playTone`'s while loop:
`chunkSize = min(totalSamples, AUDIO_BUFFER_SIZE)`, subtracted until
nothing remains.  Structural fuel recursion (each iteration consumes at
least one sample, so `fuel = total` suffices, see `chunkSizes`). -/
def chunkSizesGo : Nat → Nat → List Nat
  | 0, _ => []
  | fuel + 1, total =>
    if total = 0 then []
    else min total AUDIO_BUFFER_SIZE ::
      chunkSizesGo fuel (total - min total AUDIO_BUFFER_SIZE)

/-- The list of chunk sizes `playTone` issues for `total` samples. -/
def chunkSizes (total : Nat) : List Nat := chunkSizesGo total total

/-- The body of `playTone`'s while loop: synthesize a chunk into the
buffer, start the transfer, wait for completion, recurse on the rest.
`k` numbers the chunk so each iteration reads its own environment. -/
def playChunksGo (sampleFn : Nat → Nat → Nat → Int) (f v : Nat)
    (envs : Nat → ChunkEnv) :
    Nat → Nat → Nat → (Nat → Nat) → ((Nat → Nat) × List Event)
  | 0, _, _, buf => (buf, [])
  | fuel + 1, total, k, buf =>
    if total = 0 then (buf, [])
    else
      ((playChunksGo sampleFn f v envs fuel (total - min total AUDIO_BUFFER_SIZE)
          (k + 1)
          (generateTone sampleFn f (min total AUDIO_BUFFER_SIZE) v buf)).1,
        (startTransfer (min total AUDIO_BUFFER_SIZE) ++
            waitForCompletion (min total AUDIO_BUFFER_SIZE) (envs k)) ++
          (playChunksGo sampleFn f v envs fuel
              (total - min total AUDIO_BUFFER_SIZE) (k + 1)
              (generateTone sampleFn f (min total AUDIO_BUFFER_SIZE) v buf)).2)

/-- `AudioI2S::playTone`: guard on `initialized` (diagnostic and return,
no other effect), clamp the duration, emit the "Playing tone" diagnostic,
set `playing`, stream the chunks, clear `playing`. -/
def playTone (sampleFn : Nat → Nat → Nat → Int) (f d v : Nat)
    (envs : Nat → ChunkEnv) (st : AudioState) : AudioState × List Event :=
  if st.initialized then
    ({ st with
        playing := false
        buffer := (playChunksGo sampleFn f v envs (totalSamplesOf d)
          (totalSamplesOf d) 0 st.buffer).1 },
      Event.tone f (clampedDuration d) v ::
        (playChunksGo sampleFn f v envs (totalSamplesOf d)
          (totalSamplesOf d) 0 st.buffer).2)
  else (st, [Event.log])

/-- The loop of `AudioI2S::playMelody`: for each note index, play the
tone, then `delay(20)`.  `envs i` is the chunk environment of note `i`. -/
def playMelodyGo (sampleFn : Nat → Nat → Nat → Int) (freqs durs : Nat → Nat)
    (v : Nat) (envs : Nat → Nat → ChunkEnv) :
    Nat → Nat → AudioState → AudioState × List Event
  | _, 0, st => (st, [])
  | i, n + 1, st =>
    ((playMelodyGo sampleFn freqs durs v envs (i + 1) n
        (playTone sampleFn (freqs i) (durs i) v (envs i) st).1).1,
      ((playTone sampleFn (freqs i) (durs i) v (envs i) st).2 ++
          [Event.sleep 20]) ++
        (playMelodyGo sampleFn freqs durs v envs (i + 1) n
          (playTone sampleFn (freqs i) (durs i) v (envs i) st).1).2)

/-- `AudioI2S::playMelody` over parallel arrays given as index maps. -/
def playMelody (sampleFn : Nat → Nat → Nat → Int) (freqs durs : Nat → Nat)
    (count v : Nat) (envs : Nat → Nat → ChunkEnv) (st : AudioState) :
    AudioState × List Event :=
  playMelodyGo sampleFn freqs durs v envs 0 count st

/-- Recognises the `TASKS_START` write each chunk issues (one per
synthesize/start/await iteration). -/
def isStartWrite : Event → Bool
  | Event.write Reg.tasksStart _ => true
  | _ => false

/-- Recognises the "Playing tone" diagnostic, one per `playTone` playback
that passes the initialization guard. -/
def isToneEvent : Event → Bool
  | Event.tone _ _ _ => true
  | _ => false

/-- Recognises the fixed 20 ms inter-note gap of `playMelody`. -/
def isGap20 : Event → Bool
  | Event.sleep ms => ms == 20
  | _ => false

theorem foldlUpdate_apply (g : Nat → Nat) (l : List Nat) (b : Nat → Nat)
    (j : Nat) :
    (l.foldl (fun acc i => Function.update acc i (g i)) b) j =
      if j ∈ l then g j else b j := by
  induction l generalizing b with
  | nil => simp
  | cons a tl ih =>
    simp only [List.foldl_cons, ih, List.mem_cons]
    by_cases hj : j ∈ tl
    · simp [hj]
    · by_cases hja : j = a
      · simp [hj, hja, Function.update_apply]
      · simp [hj, hja, Function.update_apply]

theorem generateTone_apply (sampleFn : Nat → Nat → Nat → Int)
    (f n v : Nat) (buf : Nat → Nat) (j : Nat) :
    generateTone sampleFn f n v buf j =
      if j < min n AUDIO_BUFFER_SIZE then pack (sampleFn f j v) else buf j := by
  have h := foldlUpdate_apply (fun i => pack (sampleFn f i v))
    (List.range (min n AUDIO_BUFFER_SIZE)) buf j
  simpa [generateTone, List.mem_range] using h

/-- Claim C8: for every requested sample count, the synthesizer writes
only buffer indices strictly below the capacity (256); every index at or
beyond the capacity is left untouched (silent truncation). -/
theorem c8_no_write_beyond_capacity (sampleFn : Nat → Nat → Nat → Int)
    (f n v : Nat) (buf : Nat → Nat) (j : Nat)
    (h : AUDIO_BUFFER_SIZE ≤ j) :
    generateTone sampleFn f n v buf j = buf j := by
  have hlt : ¬ (j < min n AUDIO_BUFFER_SIZE) := by
    have := min_le_right n AUDIO_BUFFER_SIZE
    omega
  rw [generateTone_apply, if_neg hlt]

theorem c8_no_write_beyond_capacity_witness :
    AUDIO_BUFFER_SIZE ≤ 300 ∧
      generateTone (fun _ _ _ => 0) 440 1000 50 (fun _ => 7) 300 = 7 :=
  ⟨by norm_num [AUDIO_BUFFER_SIZE],
    c8_no_write_beyond_capacity (fun _ _ _ => 0) 440 1000 50 (fun _ => 7) 300
      (by norm_num [AUDIO_BUFFER_SIZE])⟩

theorem expectedDurationMs_eq (n : Nat) :
    expectedDurationMs n = max (n * 1000 / SAMPLE_RATE) 1 := by
  unfold expectedDurationMs SAMPLE_RATE
  split <;> omega

/-- Claim C2 (amended): on the success path, `waitForCompletion` computes
the expected playback duration as the truncating (floor) division
`sampleCount * 1000 / sampleRate` raised to a minimum of 1 ms, and sleeps
for that expected duration plus one extra millisecond before issuing the
stop command. -/
theorem c2_wait_success_shape (n : Nat) (env : ChunkEnv)
    (h : env.tx = true) :
    waitForCompletion n env =
      [Event.write Reg.evTxPtrUpd 0,
       Event.sleep (max (n * 1000 / SAMPLE_RATE) 1 + 1), Event.log,
       Event.write Reg.tasksStop 1] ++
        (if env.stp then [Event.write Reg.evStopped 0, Event.log]
         else [Event.log, Event.log]) := by
  unfold waitForCompletion
  rw [h, expectedDurationMs_eq]
  simp

theorem c2_wait_success_shape_witness :
    (ChunkEnv.mk true true).tx = true ∧
      waitForCompletion 256 (ChunkEnv.mk true true) =
        [Event.write Reg.evTxPtrUpd 0,
         Event.sleep (max (256 * 1000 / SAMPLE_RATE) 1 + 1), Event.log,
         Event.write Reg.tasksStop 1] ++
          (if (ChunkEnv.mk true true).stp then
            [Event.write Reg.evStopped 0, Event.log]
           else [Event.log, Event.log]) :=
  ⟨rfl, c2_wait_success_shape 256 (ChunkEnv.mk true true) rfl⟩

/-- Claim C2 counterexample: at sampleCount = 256 the spec's expected
duration (ceiling division, minimum 1 ms) is 16 ms, but the success path
contains no 16 ms sleep: the code sleeps 17 ms (floor division plus one
extra millisecond). -/
theorem c2_counterexample :
    claimedExpectedMs 256 = 16 ∧
      Event.sleep (claimedExpectedMs 256) ∉
        waitForCompletion 256 (ChunkEnv.mk true true) := by
  constructor
  · decide
  · decide

/-- Claim C4: when the buffer-fetched (`TXPTRUPD`) signal does not appear
within the timeout, `waitForCompletion` emits error diagnostics and
returns early: the trace holds no `TASKS_STOP` write and no
expected-duration sleep. -/
theorem c4_timeout_no_stop (n : Nat) (env : ChunkEnv)
    (h : env.tx = false) :
    waitForCompletion n env = [Event.log, Event.log] ∧
      Event.write Reg.tasksStop 1 ∉ waitForCompletion n env ∧
      Event.sleep (expectedDurationMs n + 1) ∉ waitForCompletion n env := by
  have ht : waitForCompletion n env = [Event.log, Event.log] := by
    unfold waitForCompletion
    rw [h]
    simp
  refine ⟨ht, ?_, ?_⟩ <;> rw [ht] <;> simp

theorem c4_timeout_no_stop_witness :
    (ChunkEnv.mk false true).tx = false ∧
      (waitForCompletion 256 (ChunkEnv.mk false true) =
          [Event.log, Event.log] ∧
        Event.write Reg.tasksStop 1 ∉
          waitForCompletion 256 (ChunkEnv.mk false true) ∧
        Event.sleep (expectedDurationMs 256 + 1) ∉
          waitForCompletion 256 (ChunkEnv.mk false true)) :=
  ⟨rfl, c4_timeout_no_stop 256 (ChunkEnv.mk false true) rfl⟩

/-- Claim C5: calling `playTone` while the driver is not initialized
leaves the whole state (buffer included) unchanged, emits exactly one
diagnostic line and no register write, and keeps `isPlaying()` false. -/
theorem c5_uninitialized_noop (sampleFn : Nat → Nat → Nat → Int)
    (f d v : Nat) (envs : Nat → ChunkEnv) (st : AudioState)
    (h : st.initialized = false) :
    (playTone sampleFn f d v envs st).1 = st ∧
      (playTone sampleFn f d v envs st).2 = [Event.log] ∧
      (st.playing = false →
        isPlaying (playTone sampleFn f d v envs st).1 = false) := by
  unfold playTone
  rw [h]
  simp [isPlaying]

theorem c5_uninitialized_noop_witness :
    (AudioState.mk false false (fun _ => 0)).initialized = false ∧
      ((playTone (fun _ _ _ => 0) 440 100 50 (fun _ => ChunkEnv.mk true true)
          (AudioState.mk false false (fun _ => 0))).1 =
        AudioState.mk false false (fun _ => 0) ∧
        (playTone (fun _ _ _ => 0) 440 100 50 (fun _ => ChunkEnv.mk true true)
          (AudioState.mk false false (fun _ => 0))).2 = [Event.log] ∧
        ((AudioState.mk false false (fun _ => 0)).playing = false →
          isPlaying (playTone (fun _ _ _ => 0) 440 100 50
            (fun _ => ChunkEnv.mk true true)
            (AudioState.mk false false (fun _ => 0))).1 = false)) :=
  ⟨rfl, c5_uninitialized_noop (fun _ _ _ => 0) 440 100 50
    (fun _ => ChunkEnv.mk true true) (AudioState.mk false false (fun _ => 0))
    rfl⟩

/-- Claim C7: on every exit of `playTone` the playback state is Idle:
whenever the call can reach the point where `playing` is set (driver
initialized), or `playing` was already false, the returned state has
`playing = false` — including runs whose chunk completions time out,
since those timeouts do not exit the loop. -/
theorem c7_playing_restored (sampleFn : Nat → Nat → Nat → Int)
    (f d v : Nat) (envs : Nat → ChunkEnv) (st : AudioState)
    (h : st.initialized = true ∨ st.playing = false) :
    ((playTone sampleFn f d v envs st).1).playing = false := by
  by_cases hinit : st.initialized = true
  · simp [playTone, hinit]
  · have hf : st.initialized = false := by
      simpa using hinit
    rcases h with h1 | h2
    · exact absurd h1 hinit
    · simp [playTone, hf, h2]

theorem c7_playing_restored_witness :
    ((AudioState.mk true false (fun _ => 0)).initialized = true ∨
      (AudioState.mk true false (fun _ => 0)).playing = false) ∧
      ((playTone (fun _ _ _ => 0) 440 5 50 (fun _ => ChunkEnv.mk false false)
        (AudioState.mk true false (fun _ => 0))).1).playing = false :=
  ⟨Or.inl rfl, c7_playing_restored (fun _ _ _ => 0) 440 5 50
    (fun _ => ChunkEnv.mk false false) (AudioState.mk true false (fun _ => 0))
    (Or.inl rfl)⟩

/-- Claim C9: `begin` returns true on every call; when the driver is
already initialized the call is a no-op success — the state is unchanged
and the trace is a single diagnostic line, with no register write. -/
theorem c9_begin_true (st : AudioState) :
    (begin st).1 = true ∧
      (st.initialized = true →
        (begin st).2.1 = st ∧ (begin st).2.2 = [Event.log]) := by
  by_cases h : st.initialized = true
  · simp [begin, h]
  · have hf : st.initialized = false := by
      simpa using h
    simp [begin, hf]

theorem chunkSizesGo_length : ∀ fuel total, total ≤ fuel →
    (chunkSizesGo fuel total).length = ceilDiv total AUDIO_BUFFER_SIZE := by
  intro fuel
  induction fuel with
  | zero =>
    intro total h
    have h0 : total = 0 := Nat.le_zero.mp h
    subst h0
    decide
  | succ fuel ih =>
    intro total h
    by_cases h0 : total = 0
    · subst h0
      norm_num [chunkSizesGo, ceilDiv, AUDIO_BUFFER_SIZE]
    · have hc : 1 ≤ min total AUDIO_BUFFER_SIZE := by
        unfold AUDIO_BUFFER_SIZE
        omega
      rw [chunkSizesGo, if_neg h0, List.length_cons,
        ih (total - min total AUDIO_BUFFER_SIZE) (by omega)]
      unfold ceilDiv AUDIO_BUFFER_SIZE
      unfold AUDIO_BUFFER_SIZE at hc
      omega

theorem countP_isStartWrite_startTransfer (c : Nat) :
    (startTransfer c).countP isStartWrite = 1 := by
  rfl

theorem countP_isStartWrite_wait (c : Nat) (env : ChunkEnv) :
    (waitForCompletion c env).countP isStartWrite = 0 := by
  rcases env with ⟨tx, stp⟩
  cases tx <;> cases stp <;> rfl

theorem playChunksGo_countP_start (sampleFn : Nat → Nat → Nat → Int)
    (f v : Nat) (envs : Nat → ChunkEnv) : ∀ fuel total k buf,
    ((playChunksGo sampleFn f v envs fuel total k buf).2).countP isStartWrite =
      (chunkSizesGo fuel total).length := by
  intro fuel
  induction fuel with
  | zero =>
    intro total k buf
    rfl
  | succ fuel ih =>
    intro total k buf
    by_cases h0 : total = 0
    · subst h0
      rfl
    · simp only [playChunksGo, chunkSizesGo, if_neg h0]
      rw [List.countP_append, List.countP_append,
        countP_isStartWrite_startTransfer, countP_isStartWrite_wait, ih]
      simp [Nat.add_comm]

/-- Claim C6: for an initialized driver, `playTone` computes the total
sample count `sampleRate * clampedDuration / 1000` and issues exactly
`ceil(totalSamples / bufferCapacity)` synthesize/start/await iterations
(counted by their `TASKS_START` writes); in particular a 1000 ms tone at
16 kHz with capacity 256 yields 16000 samples, exactly 63 chunks, the
last of size 128. -/
theorem c6_chunking (sampleFn : Nat → Nat → Nat → Int) (f d v : Nat)
    (envs : Nat → ChunkEnv) (st : AudioState) (h : st.initialized = true) :
    ((playTone sampleFn f d v envs st).2).countP isStartWrite =
        ceilDiv (totalSamplesOf d) AUDIO_BUFFER_SIZE ∧
      totalSamplesOf d = SAMPLE_RATE * clampedDuration d / 1000 ∧
      totalSamplesOf 1000 = 16000 ∧
      ceilDiv 16000 AUDIO_BUFFER_SIZE = 63 ∧
      (chunkSizes 16000).length = 63 ∧
      (chunkSizes 16000).getLast? = some 128 := by
  refine ⟨?_, rfl, by decide, by decide, by decide, by decide⟩
  simp only [playTone, h, if_true, List.countP_cons]
  rw [playChunksGo_countP_start,
    chunkSizesGo_length _ _ (Nat.le_refl _)]
  simp [isStartWrite]

theorem c6_chunking_witness :
    (AudioState.mk true false (fun _ => 0)).initialized = true ∧
      (((playTone (fun _ _ _ => 0) 440 1000 50 (fun _ => ChunkEnv.mk true true)
            (AudioState.mk true false (fun _ => 0))).2).countP isStartWrite =
          ceilDiv (totalSamplesOf 1000) AUDIO_BUFFER_SIZE ∧
        totalSamplesOf 1000 = SAMPLE_RATE * clampedDuration 1000 / 1000 ∧
        totalSamplesOf 1000 = 16000 ∧
        ceilDiv 16000 AUDIO_BUFFER_SIZE = 63 ∧
        (chunkSizes 16000).length = 63 ∧
        (chunkSizes 16000).getLast? = some 128) :=
  ⟨rfl, c6_chunking (fun _ _ _ => 0) 440 1000 50
    (fun _ => ChunkEnv.mk true true) (AudioState.mk true false (fun _ => 0))
    rfl⟩

/-- Claim C10: `playTone` clamps the requested duration to at least 1 ms
(besides the 2000 ms ceiling): the emitted playback diagnostic carries
the clamped duration, and a request of 0 ms is not a no-op — it yields
`sampleRate / 1000 = 16` samples, played as one chunk of 16. -/
theorem c10_duration_min_clamp (sampleFn : Nat → Nat → Nat → Int)
    (f v : Nat) (envs : Nat → ChunkEnv) (st : AudioState) (d : Nat)
    (h : st.initialized = true) :
    1 ≤ clampedDuration d ∧
      clampedDuration d ≤ MAX_TONE_DURATION_MS ∧
      Event.tone f (clampedDuration d) v ∈ (playTone sampleFn f d v envs st).2 ∧
      clampedDuration 0 = 1 ∧
      totalSamplesOf 0 = SAMPLE_RATE / 1000 ∧
      chunkSizes (totalSamplesOf 0) = [SAMPLE_RATE / 1000] := by
  refine ⟨?_, ?_, ?_, by decide, by decide, by decide⟩
  · unfold clampedDuration MAX_TONE_DURATION_MS
    omega
  · unfold clampedDuration MAX_TONE_DURATION_MS
    omega
  · simp [playTone, h]

theorem c10_duration_min_clamp_witness :
    (AudioState.mk true false (fun _ => 0)).initialized = true ∧
      (1 ≤ clampedDuration 0 ∧
        clampedDuration 0 ≤ MAX_TONE_DURATION_MS ∧
        Event.tone 880 (clampedDuration 0) 30 ∈
          (playTone (fun _ _ _ => 0) 880 0 30 (fun _ => ChunkEnv.mk true true)
            (AudioState.mk true false (fun _ => 0))).2 ∧
        clampedDuration 0 = 1 ∧
        totalSamplesOf 0 = SAMPLE_RATE / 1000 ∧
        chunkSizes (totalSamplesOf 0) = [SAMPLE_RATE / 1000]) :=
  ⟨rfl, c10_duration_min_clamp (fun _ _ _ => 0) 880 30
    (fun _ => ChunkEnv.mk true true) (AudioState.mk true false (fun _ => 0)) 0
    rfl⟩

theorem expectedDurationMs_succ_ne_20 (c : Nat) (h : c ≤ AUDIO_BUFFER_SIZE) :
    expectedDurationMs c + 1 ≠ 20 := by
  unfold expectedDurationMs SAMPLE_RATE
  unfold AUDIO_BUFFER_SIZE at h
  split <;> omega

theorem countP_isGap20_startTransfer (c : Nat) :
    (startTransfer c).countP isGap20 = 0 := by
  rfl

theorem countP_isGap20_wait (c : Nat) (env : ChunkEnv)
    (h : c ≤ AUDIO_BUFFER_SIZE) :
    (waitForCompletion c env).countP isGap20 = 0 := by
  have hne : (expectedDurationMs c + 1 == 20) = false := by
    rw [beq_eq_false_iff_ne]
    exact expectedDurationMs_succ_ne_20 c h
  rcases env with ⟨tx, stp⟩
  cases tx <;> cases stp <;> simp [waitForCompletion, isGap20, hne]

theorem playChunksGo_countP_gap (sampleFn : Nat → Nat → Nat → Int)
    (f v : Nat) (envs : Nat → ChunkEnv) : ∀ fuel total k buf,
    ((playChunksGo sampleFn f v envs fuel total k buf).2).countP isGap20 = 0 := by
  intro fuel
  induction fuel with
  | zero =>
    intro total k buf
    rfl
  | succ fuel ih =>
    intro total k buf
    by_cases h0 : total = 0
    · subst h0
      rfl
    · simp only [playChunksGo, if_neg h0]
      rw [List.countP_append, List.countP_append,
        countP_isGap20_startTransfer,
        countP_isGap20_wait _ _ (min_le_right _ _), ih]

theorem playTone_countP_gap (sampleFn : Nat → Nat → Nat → Int)
    (f d v : Nat) (envs : Nat → ChunkEnv) (st : AudioState) :
    ((playTone sampleFn f d v envs st).2).countP isGap20 = 0 := by
  by_cases h : st.initialized = true
  · simp only [playTone, h, if_true, List.countP_cons]
    rw [playChunksGo_countP_gap]
    simp [isGap20]
  · have hf : st.initialized = false := by
      simpa using h
    simp [playTone, hf, isGap20]

theorem filter_tone_startTransfer (c : Nat) :
    (startTransfer c).filter isToneEvent = [] := by
  rfl

theorem filter_tone_wait (c : Nat) (env : ChunkEnv) :
    (waitForCompletion c env).filter isToneEvent = [] := by
  rcases env with ⟨tx, stp⟩
  cases tx <;> cases stp <;> rfl

theorem playChunksGo_filter_tone (sampleFn : Nat → Nat → Nat → Int)
    (f v : Nat) (envs : Nat → ChunkEnv) : ∀ fuel total k buf,
    ((playChunksGo sampleFn f v envs fuel total k buf).2).filter
      isToneEvent = [] := by
  intro fuel
  induction fuel with
  | zero =>
    intro total k buf
    rfl
  | succ fuel ih =>
    intro total k buf
    by_cases h0 : total = 0
    · subst h0
      rfl
    · simp only [playChunksGo, if_neg h0]
      rw [List.filter_append, List.filter_append,
        filter_tone_startTransfer, filter_tone_wait, ih]
      rfl

theorem playTone_filter_tone (sampleFn : Nat → Nat → Nat → Int)
    (f d v : Nat) (envs : Nat → ChunkEnv) (st : AudioState)
    (h : st.initialized = true) :
    ((playTone sampleFn f d v envs st).2).filter isToneEvent =
      [Event.tone f (clampedDuration d) v] := by
  simp only [playTone, h, if_true, List.filter_cons]
  rw [playChunksGo_filter_tone]
  simp [isToneEvent]

theorem playTone_keeps_initialized (sampleFn : Nat → Nat → Nat → Int)
    (f d v : Nat) (envs : Nat → ChunkEnv) (st : AudioState) :
    ((playTone sampleFn f d v envs st).1).initialized = st.initialized := by
  by_cases h : st.initialized = true
  · simp [playTone, h]
  · have hf : st.initialized = false := by
      simpa using h
    simp [playTone, hf]

theorem playMelodyGo_spec (sampleFn : Nat → Nat → Nat → Int)
    (freqs durs : Nat → Nat) (v : Nat) (envs : Nat → Nat → ChunkEnv) :
    ∀ n i st, st.initialized = true →
      ((playMelodyGo sampleFn freqs durs v envs i n st).2).filter isToneEvent =
          (List.range n).map (fun j =>
            Event.tone (freqs (i + j)) (clampedDuration (durs (i + j))) v) ∧
        ((playMelodyGo sampleFn freqs durs v envs i n st).2).countP isGap20 =
          n ∧
        ((playMelodyGo sampleFn freqs durs v envs i n st).1).initialized =
          true := by
  intro n
  induction n with
  | zero =>
    intro i st h
    exact ⟨rfl, rfl, h⟩
  | succ n ih =>
    intro i st h
    have h1 : ((playTone sampleFn (freqs i) (durs i) v (envs i) st).1).initialized
        = true := by
      rw [playTone_keeps_initialized]
      exact h
    obtain ⟨f1, g1, i1⟩ := ih (i + 1)
      ((playTone sampleFn (freqs i) (durs i) v (envs i) st).1) h1
    have e1 : (playMelodyGo sampleFn freqs durs v envs i (n + 1) st).2 =
        ((playTone sampleFn (freqs i) (durs i) v (envs i) st).2 ++
            [Event.sleep 20]) ++
          (playMelodyGo sampleFn freqs durs v envs (i + 1) n
            (playTone sampleFn (freqs i) (durs i) v (envs i) st).1).2 := rfl
    refine ⟨?_, ?_, i1⟩
    · rw [e1, List.filter_append, List.filter_append,
        playTone_filter_tone sampleFn (freqs i) (durs i) v (envs i) st h, f1]
      have e2 : List.filter isToneEvent [Event.sleep 20] = [] := rfl
      rw [e2, List.append_nil, List.range_succ_eq_map, List.map_cons,
        List.map_map, List.singleton_append]
      have e5 : (fun j =>
            Event.tone (freqs (i + j)) (clampedDuration (durs (i + j))) v) ∘
            Nat.succ =
          fun j =>
            Event.tone (freqs (i + 1 + j)) (clampedDuration (durs (i + 1 + j)))
              v := by
        funext j
        have e3 : i + Nat.succ j = i + 1 + j := by omega
        simp only [Function.comp_apply, e3]
      rw [e5]
      simp only [Nat.add_zero]
    · rw [e1, List.countP_append, List.countP_append,
        playTone_countP_gap, g1]
      have e6 : List.countP isGap20 [Event.sleep 20] = 1 := rfl
      rw [e6]
      omega

/-- Claim C1 (amended): `playMelody` with N notes performs exactly N tone
playbacks, in input-array order, each followed by the fixed 20 ms gap —
N gaps in total, the last of them after the final note (not N−1 gaps
strictly between notes). -/
theorem c1_melody_order_gaps (sampleFn : Nat → Nat → Nat → Int)
    (freqs durs : Nat → Nat) (count v : Nat) (envs : Nat → Nat → ChunkEnv)
    (st : AudioState) (h : st.initialized = true) :
    ((playMelody sampleFn freqs durs count v envs st).2).filter isToneEvent =
        (List.range count).map (fun j =>
          Event.tone (freqs j) (clampedDuration (durs j)) v) ∧
      ((playMelody sampleFn freqs durs count v envs st).2).countP isGap20 =
        count := by
  obtain ⟨hf, hg, _⟩ := playMelodyGo_spec sampleFn freqs durs v envs count 0 st h
  exact ⟨by simpa using hf, hg⟩

theorem c1_melody_order_gaps_witness :
    (AudioState.mk true false (fun _ => 0)).initialized = true ∧
      (((playMelody (fun _ _ _ => 0) (fun _ => 440) (fun _ => 1) 2 0
            (fun _ _ => ChunkEnv.mk true true)
            (AudioState.mk true false (fun _ => 0))).2).filter isToneEvent =
          (List.range 2).map (fun j =>
            Event.tone ((fun _ => 440) j)
              (clampedDuration ((fun _ => 1) j)) 0) ∧
        ((playMelody (fun _ _ _ => 0) (fun _ => 440) (fun _ => 1) 2 0
            (fun _ _ => ChunkEnv.mk true true)
            (AudioState.mk true false (fun _ => 0))).2).countP isGap20 = 2) :=
  ⟨rfl, c1_melody_order_gaps (fun _ _ _ => 0) (fun _ => 440) (fun _ => 1) 2 0
    (fun _ _ => ChunkEnv.mk true true) (AudioState.mk true false (fun _ => 0))
    rfl⟩

/-- Claim C1 counterexample: a melody of a single note (N = 1) already
carries one 20 ms gap — after its last (only) note — where the claim
allows N−1 = 0 gaps and none after the last note. -/
theorem c1_counterexample :
    ((playMelody (fun _ _ _ => 0) (fun _ => 440) (fun _ => 1) 1 0
        (fun _ _ => ChunkEnv.mk true true)
        (AudioState.mk true false (fun _ => 0))).2).countP isGap20 = 1 ∧
      ((playMelody (fun _ _ _ => 0) (fun _ => 440) (fun _ => 1) 1 0
        (fun _ _ => ChunkEnv.mk true true)
        (AudioState.mk true false (fun _ => 0))).2).getLast? =
        some (Event.sleep 20) := by
  constructor
  · decide
  · decide

theorem amplitudeOf_fifty : ((amplitudeOf 50 : Nat) : ℝ) = 16383 := by
  norm_num [amplitudeOf]

theorem sqrt_two_gt : (1.414213 : ℝ) < Real.sqrt 2 :=
  (Real.lt_sqrt (by norm_num)).mpr (by norm_num)

theorem sqrt_two_lt : Real.sqrt 2 < 1.4142136 := by
  rw [Real.sqrt_lt' (by norm_num)]
  norm_num

theorem sampleReal_bounds :
    (11584.5 : ℝ) < 16383 * (Real.sqrt 2 / 2) ∧
      16383 * (Real.sqrt 2 / 2) < 11585 := by
  constructor <;> linarith [sqrt_two_gt, sqrt_two_lt]

theorem angle_pi_div_four :
    2 * Real.pi * ((2000 : Nat) : ℝ) *
        (((1 : Nat) : ℝ) / ((SAMPLE_RATE : Nat) : ℝ)) = Real.pi / 4 := by
  simp only [SAMPLE_RATE]
  push_cast
  ring

theorem toneSample_at_quarter_pi : toneSample 2000 1 50 = 11584 := by
  unfold toneSample
  rw [angle_pi_div_four, Real.sin_pi_div_four, amplitudeOf_fifty]
  obtain ⟨hlo, hhi⟩ := sampleReal_bounds
  unfold truncZ
  rw [if_pos (by positivity), Int.floor_eq_iff]
  constructor
  · push_cast
    linarith
  · push_cast
    linarith

theorem specRoundSample_at_quarter_pi : specRoundSample 2000 1 50 = 11585 := by
  unfold specRoundSample
  rw [angle_pi_div_four, Real.sin_pi_div_four, amplitudeOf_fifty]
  obtain ⟨hlo, hhi⟩ := sampleReal_bounds
  rw [round_eq, Int.floor_eq_iff]
  constructor
  · push_cast
    linarith
  · push_cast
    linarith

/-- Claim C3 counterexample: at frequency 2000 Hz, index 1, volume 50 the
angle is π/4, the real sample value is 16383·√2/2 ≈ 11584.53, and the
code stores its truncation 11584 — not the claim's rounding 11585. -/
theorem c3_counterexample :
    generateTone toneSample 2000 2 50 (fun _ => 0) 1 ≠
      pack (specRoundSample 2000 1 50) := by
  have h1 : generateTone toneSample 2000 2 50 (fun _ => 0) 1 =
      pack (toneSample 2000 1 50) := by
    rw [generateTone_apply,
      if_pos (by norm_num [AUDIO_BUFFER_SIZE] : 1 < min 2 AUDIO_BUFFER_SIZE)]
  rw [h1, toneSample_at_quarter_pi, specRoundSample_at_quarter_pi]
  decide

/-- Claim C3 (amended): for each index i in [0, min(sampleCount,
capacity)) the synthesizer stores the 16-bit two's-complement packing of
the truncation toward zero (the C cast, not rounding) of
amplitude·sin(2π·f·i/sampleRate), where amplitude maps the clamped volume
by the truncating integer map volume·32767/100 (0 ↦ 0, 100 ↦ 32767); in
particular volume 0 writes zero at every written index. -/
theorem c3_sample_values (f n v : Nat) (buf : Nat → Nat) (i : Nat)
    (h : i < min n AUDIO_BUFFER_SIZE) :
    generateTone toneSample f n v buf i =
        pack (truncZ ((amplitudeOf v : ℝ) *
          Real.sin (2 * Real.pi * (f : ℝ) * ((i : ℝ) / (SAMPLE_RATE : ℝ))))) ∧
      (v = 0 → generateTone toneSample f n v buf i = 0) := by
  constructor
  · rw [generateTone_apply, if_pos h]
    rfl
  · intro hv
    subst hv
    rw [generateTone_apply, if_pos h]
    have hz : toneSample f i 0 = 0 := by
      unfold toneSample truncZ
      norm_num [amplitudeOf]
    rw [hz]
    rfl

theorem c3_sample_values_witness :
    0 < min 1 AUDIO_BUFFER_SIZE ∧
      generateTone toneSample 7 1 0 (fun _ => 5) 0 = 0 :=
  ⟨by norm_num [AUDIO_BUFFER_SIZE],
    (c3_sample_values 7 1 0 (fun _ => 5) 0
      (by norm_num [AUDIO_BUFFER_SIZE])).2 rfl⟩

end OroAudio
